import Mathlib

/-!
Shallow embedding of `src/cpu/simple_q10n.hpp` (oneDNN CPU quantization kernel).

Modelling conventions:

* C++ `float` / `double` values are modelled by `Q10n.FP`: an exact rational
  for finite values, plus signed infinity and NaN.  Finite arithmetic
  (`fpMul`, `fpAdd`) is exact rational arithmetic with the IEEE-754 special
  value propagation rules (0 * NaN = NaN, 0 * Inf = NaN, Inf - Inf = NaN, ...).
  The native per-operation floating rounding of the multiply-add is idealised
  as exact; the spec's claims under scrutiny either exempt it explicitly or do
  not depend on it.  Rounding is modelled explicitly exactly where the code
  performs a conversion the claims are about: the `mxcsr` float-to-int
  rounding, the double-to-float narrowing, and the bf16/f16 storage casts.
* Integral types are modelled by their exact value range (`IntType`), with the
  accumulator type modelled as unbounded `Int` (wide enough for every
  destination bound, matching every instantiation the kernel itself creates).
* `mxcsr_round` wraps the x64 `_mm_cvtss_si32` intrinsic (DNNL_X64 branch of
  lines 39-45).  Its semantics are not source code of this repository;
  following the spec, the default MXCSR rounding mode round-to-nearest-even is
  modelled, and the out-of-range / NaN / infinity result is the x64 integer
  indefinite value INT_MIN.
* `is_subset` lives in `common/type_helpers.hpp`, which is not under `src/`.
  It is modelled from the spec: a static predicate between integer types that
  holds when the source integer type's value range is contained in the
  destination integer type's range.
* `bfloat16_t` / `float16_t` conversions live in `common/`, not under `src/`.
  They are modelled from the spec ("truncated 16-bit brain-float format",
  "16-bit half-precision float format") as round-to-nearest-even to 8
  (resp. 11) significant bits with overflow to infinity; subnormal ranges are
  not modelled (no claim evaluates there).
* Each C++ template is embedded either as a Lean function parameterised by the
  type descriptor (when the body is uniform) or as one Lean definition per
  instantiation family, whose body is the template specialization that C++
  overload resolution selects for that instantiation.
-/

namespace Q10n

/-- Value range of an integral destination (or accumulator) type. -/
structure IntType where
  lowest : Int
  max : Int
deriving DecidableEq

/-- The `int8_t` range. -/
def s8 : IntType := ⟨-128, 127⟩

/-- The `uint8_t` range. -/
def u8 : IntType := ⟨0, 255⟩

/-- The `int32_t` range. -/
def s32 : IntType := ⟨-2147483648, 2147483647⟩

/-- Generic integral-destination `saturate<data_t, acc_t>` (lines 54-64):
`acc_t v = x; if (v < lowest) v = lowest; if (v > max) v = max; return v;`
with the accumulator modelled as unbounded `Int`. The two compares are kept
sequential as in the source. -/
def saturate (T : IntType) (x : Int) : Int :=
  let v := x
  let v1 := if v < T.lowest then T.lowest else v
  let v2 := if v1 > T.max then T.max else v1
  v2

/-- Full specialization `saturate<int8_t, uint8_t>` (lines 76-79):
`return x <= 127u ? x : 127;` for a `uint8_t` input value. -/
def saturate_s8_from_u8 (x : Int) : Int :=
  if x ≤ 127 then x else 127

/-- Full specialization `saturate<uint8_t, int8_t>` (lines 81-84):
`return x >= 0 ? x : 0;` for an `int8_t` input value. -/
def saturate_u8_from_s8 (x : Int) : Int :=
  if x ≥ 0 then x else 0

/-- Model of a C++ `float` (or `double`) value: exact rational when finite,
plus signed infinities and NaN. -/
inductive FP where
  | finite (q : ℚ)
  | inf (pos : Bool)
  | nan
deriving DecidableEq

/-- IEEE multiplication on the model: exact on finite values, NaN-propagating,
`0 * Inf = NaN`, sign rules for infinities. -/
def fpMul : FP → FP → FP
  | FP.nan, _ => FP.nan
  | _, FP.nan => FP.nan
  | FP.inf s, FP.inf t => FP.inf (s == t)
  | FP.inf s, FP.finite q =>
      if q = 0 then FP.nan else if 0 < q then FP.inf s else FP.inf (!s)
  | FP.finite q, FP.inf s =>
      if q = 0 then FP.nan else if 0 < q then FP.inf s else FP.inf (!s)
  | FP.finite a, FP.finite b => FP.finite (a * b)

/-- IEEE addition on the model: exact on finite values, NaN-propagating,
opposite infinities give NaN. -/
def fpAdd : FP → FP → FP
  | FP.nan, _ => FP.nan
  | _, FP.nan => FP.nan
  | FP.inf s, FP.inf t => if s = t then FP.inf s else FP.nan
  | FP.inf s, FP.finite _ => FP.inf s
  | FP.finite _, FP.inf s => FP.inf s
  | FP.finite a, FP.finite b => FP.finite (a + b)

/-- C++ contextual conversion of a floating value to `bool` (the `beta ?`
test): nonzero is true, and NaN and the infinities are true. -/
def fpIsTruthy : FP → Bool
  | FP.finite q => if q = 0 then false else true
  | _ => true

/-- The guarded accumulation term `(beta ? beta * out : 0)` of the
general-affine paths (lines 160, 167, 174, 181, 188, 195). -/
def betaTerm (beta out : FP) : FP :=
  if fpIsTruthy beta then fpMul beta out else FP.finite 0

/-- Round a rational to the nearest integer, ties to even (the default MXCSR
rounding mode round-to-nearest-even). -/
def rneInt (q : ℚ) : Int :=
  let f := ⌊q⌋
  if q - f < 1 / 2 then f
  else if 1 / 2 < q - f then f + 1
  else if f % 2 = 0 then f else f + 1

/-- Modelled from the spec: `mxcsr_round` (lines 39-45) wraps the x64
`_mm_cvtss_si32` intrinsic, whose semantics are hardware, not repository
source.  Per the spec the active rounding mode defaults to
round-to-nearest-even, and an input that is NaN, infinite, or whose rounded
value does not fit `int32` produces the x64 integer indefinite value
`INT_MIN = -2^31`. -/
def mxcsr_round (x : FP) : Int :=
  match x with
  | FP.finite q =>
      let r := rneInt q
      if r < -2147483648 ∨ 2147483647 < r then -2147483648 else r
  | _ => -2147483648

/-- Composition `round_and_saturate<out_t>(float f)` (lines 104-107) for an
integral destination: `saturate<out_t>(out_round<int>(f))`, where
`out_round<int>` is `(int)mxcsr_round(f)`, an identity cast on `int`. -/
def round_and_saturate (T : IntType) (f : FP) : Int :=
  saturate T (mxcsr_round f)

/-- Integer power of two as a rational, for negative exponents too. -/
def twoZpow (e : Int) : ℚ :=
  (2 : ℚ) ^ e

/-- Binary exponent of a positive rational `q`: the `e` with
`2^e ≤ q < 2^(e+1)`, computed from the bit lengths of numerator and
denominator. -/
def ratExp (q : ℚ) : Int :=
  let e0 : Int := (Nat.log2 q.num.toNat : Int) - (Nat.log2 q.den : Int)
  if q < twoZpow e0 then e0 - 1 else e0

/-- Round a rational to `p` significant binary digits, nearest-even
(normal-range model of a binary floating-point storage cast). -/
def roundToBits (p : ℕ) (q : ℚ) : ℚ :=
  if q = 0 then 0
  else
    let aq := |q|
    let e := ratExp aq
    let ulp := twoZpow (e - ((p : Int) - 1))
    let r := (rneInt (aq / ulp) : ℚ) * ulp
    if q < 0 then -r else r

/-- Storage cast into a binary floating format with `p` significant bits and
largest finite magnitude `maxAbs`: round to nearest, overflow to infinity,
NaN and infinities pass through. -/
def fpCast (p : ℕ) (maxAbs : ℚ) (x : FP) : FP :=
  match x with
  | FP.finite q =>
      let r := roundToBits p q
      if maxAbs < |r| then (if r < 0 then FP.inf false else FP.inf true)
      else FP.finite r
  | y => y

/-- Largest finite `float` magnitude, `(2 - 2^-23) * 2^127`. -/
def f32max : ℚ := (2 - twoZpow (-23)) * twoZpow 127

/-- Largest finite `bfloat16_t` magnitude, `(2 - 2^-7) * 2^127`. -/
def bf16max : ℚ := (2 - twoZpow (-7)) * twoZpow 127

/-- Largest finite `float16_t` magnitude. -/
def f16max : ℚ := 65504

/-- Modelled from the spec: the C++ `(float)v` narrowing of a `double`
(24 significant bits, round-to-nearest-even). -/
def float_of_double : FP → FP := fpCast 24 f32max

/-- Modelled from the spec: the `bfloat16_t` storage cast of a `float`
(truncated 16-bit brain-float format: 8 significant bits). -/
def bf16_of_f32 : FP → FP := fpCast 8 bf16max

/-- Modelled from the spec: the `float16_t` storage cast of a `float`
(IEEE half precision: 11 significant bits). -/
def f16_of_f32 : FP → FP := fpCast 11 f16max

/-- The integral `out_round<out_t>(float v)` overload (lines 86-90):
`(out_t)mxcsr_round(v)`, with the destination integral type's value
conversion passed in as `castT` (identity for `out_t = int`). -/
def out_round_f (castT : Int → Int) (v : FP) : Int :=
  castT (mxcsr_round v)

/-- The integral `out_round<out_t>(double v)` overload (lines 92-96):
`(out_t)mxcsr_round((float)v)` — the double is narrowed to `float` before
rounding. -/
def out_round_d (castT : Int → Int) (v : FP) : Int :=
  castT (mxcsr_round (float_of_double v))

/-- Element-type tags appearing in the kernel's instantiations. -/
inductive DType where
  | ds8 | du8 | ds32 | df32 | dbf16 | df16
deriving DecidableEq

/-- Value range of the integral element types; `none` for floating types. -/
def dtypeRange : DType → Option (Int × Int)
  | DType.ds8 => some (-128, 127)
  | DType.du8 => some (0, 255)
  | DType.ds32 => some (-2147483648, 2147483647)
  | _ => none

/-- Modelled from the spec: `is_subset` (declared in `common/type_helpers.hpp`,
outside `src/`) is a static predicate between integer types that holds when
the first type's value range is fully contained in the second's, letting
`qz_a1b0` skip saturation and use a plain cast. -/
def is_subset (a b : DType) : Bool :=
  match dtypeRange a, dtypeRange b with
  | some (la, ha), some (lb, hb) => decide (lb ≤ la) && decide (ha ≤ hb)
  | _, _ => false

/-- Primary template `qz_a1b0<in_t, out_t>` (lines 110-113) instantiated at a
floating input and integral output (neither partial specialization applies:
`in_t` is not integral and `is_subset` fails):
`round_and_saturate<out_t>((float)in)`. -/
def qz_a1b0_f32_s8 (x : FP) : Int :=
  round_and_saturate s8 x

/-- Primary template `qz_a1b0<in_t, out_t>` (lines 110-113) instantiated at
`in_t = float`, `out_t = bfloat16_t` (`float` is not integral,
`is_subset float bfloat16` fails, so the primary template applies):
`round_and_saturate<bfloat16_t>((float)in)`, which is
`saturate<bfloat16_t>(out_round<int>(in))` — the non-integral `saturate`
overload is a plain numeric cast of the rounded `int` into `bfloat16_t`. -/
def qz_a1b0_f32_bf16 (x : FP) : FP :=
  bf16_of_f32 (FP.finite (mxcsr_round x))

/-- Partial specialization of `qz_a1b0` for an integral input that is not a
range subset of the integral output (lines 115-120), at
`in_t = int32_t`, `out_t = int8_t`: `saturate<int8_t>(in)`. -/
def qz_a1b0_s32_s8 (i : Int) : Int :=
  saturate s8 i

/-- Partial specialization of `qz_a1b0` for an integral input that is not a
range subset of the output (lines 115-120), at `in_t = uint8_t`,
`out_t = int8_t`: `saturate<int8_t>(in)`, which overload resolution sends to
the full specialization `saturate<int8_t, uint8_t>`. -/
def qz_a1b0_u8_s8 (i : Int) : Int :=
  saturate_s8_from_u8 i

/-- Partial specialization of `qz_a1b0` for a subset integral pair
(lines 122-126), at `in_t = int8_t`, `out_t = int32_t`: plain cast
`(out_t)in`. -/
def qz_a1b0_s8_s32 (i : Int) : Int :=
  i

/-- Generic `qz_a1<in_t, out_t>` (lines 129-134) with an integral output:
`round_and_saturate<out_t>((float)in + beta * out)`.  Note the absence of a
`beta ?` guard: `beta * out` is computed unconditionally. -/
def qz_a1_int (T : IntType) (inF : FP) (out : Int) (beta : FP) : Int :=
  round_and_saturate T (fpAdd inF (fpMul beta (FP.finite out)))

/-- Specialization `qz_a1<in_t, float>` (lines 136-141):
`(float)in + beta * out`, again with no `beta ?` guard. -/
def qz_a1_f32 (inF : FP) (out : FP) (beta : FP) : FP :=
  fpAdd inF (fpMul beta out)

/-- Generic `qz_b0<in_t, out_t>` (lines 144-149) with an integral output:
`round_and_saturate<out_t>(alpha * in)`. -/
def qz_b0_int (T : IntType) (inF : FP) (alpha : FP) : Int :=
  round_and_saturate T (fpMul alpha inF)

/-- Specialization `qz_b0<in_t, float>` (lines 151-154): `alpha * in`. -/
def qz_b0_f32 (inF : FP) (alpha : FP) : FP :=
  fpMul alpha inF

/-- Generic `qz<in_t, out_t>` (lines 157-162) with an integral output:
`round_and_saturate<out_t>(alpha * in + (beta ? beta * out : 0))`. -/
def qz_int (T : IntType) (inF : FP) (out : Int) (alpha beta : FP) : Int :=
  round_and_saturate T (fpAdd (fpMul alpha inF) (betaTerm beta (FP.finite out)))

/-- Specialization `qz<in_t, float>` (lines 164-169):
`alpha * in + (beta ? beta * out : 0)`. -/
def qz_f32 (inF : FP) (out : FP) (alpha beta : FP) : FP :=
  fpAdd (fpMul alpha inF) (betaTerm beta out)

/-- Full specialization `qz<bfloat16_t, bfloat16_t>` (lines 171-176):
`(bfloat16_t)(alpha * (float)in + (beta ? beta * (float)out : 0))`; the
bf16-to-float reads are exact, the single bf16 storage cast sits at the
end. -/
def qz_bf16_bf16 (inF : FP) (out : FP) (alpha beta : FP) : FP :=
  bf16_of_f32 (fpAdd (fpMul alpha inF) (betaTerm beta out))

/-- Full specialization `qz<float, bfloat16_t>` (lines 178-183):
`(bfloat16_t)(alpha * in + (beta ? beta * out : 0))`. -/
def qz_f32_bf16 (inF : FP) (out : FP) (alpha beta : FP) : FP :=
  bf16_of_f32 (fpAdd (fpMul alpha inF) (betaTerm beta out))

/-- Full specialization `qz<float16_t, float16_t>` (lines 185-190):
`(float16_t)(alpha * (float)in + (beta ? beta * (float)out : 0))`. -/
def qz_f16_f16 (inF : FP) (out : FP) (alpha beta : FP) : FP :=
  f16_of_f32 (fpAdd (fpMul alpha inF) (betaTerm beta out))

/-- Full specialization `qz<float, float16_t>` (lines 192-197):
`(float16_t)(alpha * in + (beta ? beta * out : 0))`. -/
def qz_f32_f16 (inF : FP) (out : FP) (alpha beta : FP) : FP :=
  f16_of_f32 (fpAdd (fpMul alpha inF) (betaTerm beta out))

/-- Spec-side reference: the affine formula `alpha * in + beta * out_prev`
computed in the float domain, with the spec's edge-case policy that the
accumulation term is the guarded `(beta ? beta * out_prev : 0)`. -/
def affineGuarded (alpha inF beta outPrev : FP) : FP :=
  fpAdd (fpMul alpha inF) (betaTerm beta outPrev)

/-! Helper lemmas. -/

theorem fpAdd_finite_zero (x : FP) : fpAdd x (FP.finite 0) = x := by
  cases x <;> simp [fpAdd]

theorem fpMul_finite_one (x : FP) : fpMul (FP.finite 1) x = x := by
  cases x <;> simp [fpMul]

theorem betaTerm_finite_zero (x : FP) : betaTerm (FP.finite 0) x = FP.finite 0 := by
  simp [betaTerm, fpIsTruthy]

theorem rneInt_eq_low (q : ℚ) (f : Int) (hf : ⌊q⌋ = f) (h : q - f < 1 / 2) :
    rneInt q = f := by
  simp only [rneInt, hf]
  rw [if_pos h]

theorem rneInt_eq_high (q : ℚ) (f : Int) (hf : ⌊q⌋ = f) (h : 1 / 2 < q - f) :
    rneInt q = f + 1 := by
  simp only [rneInt, hf]
  rw [if_neg (by linarith), if_pos h]

theorem rneInt_eq_tie_odd (q : ℚ) (f : Int) (hf : ⌊q⌋ = f) (h : q - f = 1 / 2)
    (ho : f % 2 = 1) : rneInt q = f + 1 := by
  simp only [rneInt, hf]
  rw [if_neg (by rw [h]; exact lt_irrefl _), if_neg (by rw [h]; exact lt_irrefl _),
    if_neg (by omega)]

theorem rneInt_int (i : Int) : rneInt (i : ℚ) = i := by
  refine rneInt_eq_low _ i (Int.floor_intCast i) ?_
  norm_num

theorem mxcsr_round_int (i : Int) (h1 : -2147483648 ≤ i) (h2 : i ≤ 2147483647) :
    mxcsr_round (FP.finite (i : ℚ)) = i := by
  simp only [mxcsr_round, rneInt_int]
  split_ifs with h
  · omega
  · rfl

theorem roundToBits_eval (p : ℕ) (q : ℚ) (e m : Int)
    (hq : 0 < q) (he : ratExp q = e)
    (hm : rneInt (q / twoZpow (e - ((p : Int) - 1))) = m) :
    roundToBits p q = (m : ℚ) * twoZpow (e - ((p : Int) - 1)) := by
  simp only [roundToBits]
  rw [abs_of_pos hq, he, hm, if_neg hq.ne', if_neg (not_lt.mpr hq.le)]

theorem fpCast_eval (p : ℕ) (maxAbs q r : ℚ) (h : roundToBits p q = r)
    (hr0 : 0 ≤ r) (hle : r ≤ maxAbs) : fpCast p maxAbs (FP.finite q) = FP.finite r := by
  simp only [fpCast, h]
  rw [if_neg (not_lt.mpr (by rwa [abs_of_nonneg hr0]))]

theorem bf16_of_f32_two : bf16_of_f32 (FP.finite 2) = FP.finite 2 := by
  have hnum : (2 : ℚ).num = 2 := by norm_num
  have hden : (2 : ℚ).den = 1 := by norm_num
  have he : ratExp (2 : ℚ) = 1 := by
    simp only [ratExp, hnum, hden, Int.reduceToNat]
    norm_num [Nat.log2, twoZpow]
  have hulp : twoZpow ((1 : Int) - (((8 : ℕ) : Int) - 1)) = (64 : ℚ)⁻¹ := by
    norm_num [twoZpow]
  have hm : rneInt ((2 : ℚ) / twoZpow ((1 : Int) - (((8 : ℕ) : Int) - 1))) = 128 := by
    rw [hulp]
    exact rneInt_eq_low _ 128 (by norm_num [Int.floor_eq_iff]) (by norm_num)
  have hrb : roundToBits 8 (2 : ℚ) = 2 := by
    rw [roundToBits_eval 8 2 1 128 (by norm_num) he hm, hulp]
    norm_num
  exact fpCast_eval 8 bf16max 2 2 hrb (by norm_num)
    (by norm_num [bf16max, twoZpow])

theorem bf16_of_f32_three_halves : bf16_of_f32 (FP.finite (3 / 2)) = FP.finite (3 / 2) := by
  have hnum : ((3 : ℚ) / 2).num = 3 := by norm_num
  have hden : ((3 : ℚ) / 2).den = 2 := by norm_num
  have he : ratExp ((3 : ℚ) / 2) = 0 := by
    simp only [ratExp, hnum, hden, Int.reduceToNat]
    norm_num [Nat.log2, twoZpow]
  have hulp : twoZpow ((0 : Int) - (((8 : ℕ) : Int) - 1)) = (128 : ℚ)⁻¹ := by
    norm_num [twoZpow]
  have hm : rneInt ((3 : ℚ) / 2 / twoZpow ((0 : Int) - (((8 : ℕ) : Int) - 1))) = 192 := by
    rw [hulp]
    exact rneInt_eq_low _ 192 (by norm_num [Int.floor_eq_iff]) (by norm_num)
  have hrb : roundToBits 8 ((3 : ℚ) / 2) = 3 / 2 := by
    rw [roundToBits_eval 8 (3 / 2) 0 192 (by norm_num) he hm, hulp]
    norm_num
  exact fpCast_eval 8 bf16max (3 / 2) (3 / 2) hrb (by norm_num)
    (by norm_num [bf16max, twoZpow])

theorem mxcsr_round_three_halves : mxcsr_round (FP.finite (3 / 2)) = 2 := by
  have h : rneInt ((3 : ℚ) / 2) = 2 := by
    have := rneInt_eq_tie_odd ((3 : ℚ) / 2) 1 (by norm_num [Int.floor_eq_iff])
      (by norm_num) (by norm_num)
    norm_num at this
    exact this
  simp only [mxcsr_round, h]
  norm_num

theorem float_of_double_eval_c9 :
    float_of_double (FP.finite (167772167 / 10)) = FP.finite 16777216 := by
  have hnum : ((167772167 : ℚ) / 10).num = 167772167 := by norm_num
  have hden : ((167772167 : ℚ) / 10).den = 10 := by norm_num
  have he : ratExp ((167772167 : ℚ) / 10) = 24 := by
    simp only [ratExp, hnum, hden, Int.reduceToNat]
    norm_num [Nat.log2, twoZpow]
  have hulp : twoZpow ((24 : Int) - (((24 : ℕ) : Int) - 1)) = 2 := by
    norm_num [twoZpow]
  have hm : rneInt ((167772167 : ℚ) / 10
      / twoZpow ((24 : Int) - (((24 : ℕ) : Int) - 1))) = 8388608 := by
    rw [hulp]
    exact rneInt_eq_low _ 8388608 (by norm_num [Int.floor_eq_iff]) (by norm_num)
  have hrb : roundToBits 24 ((167772167 : ℚ) / 10) = 16777216 := by
    rw [roundToBits_eval 24 (167772167 / 10) 24 8388608 (by norm_num) he hm, hulp]
    norm_num
  exact fpCast_eval 24 f32max (167772167 / 10) 16777216 hrb (by norm_num)
    (by norm_num [f32max, twoZpow])

theorem qz_a1b0_f32_bf16_three_halves :
    qz_a1b0_f32_bf16 (FP.finite (3 / 2)) = FP.finite 2 := by
  have hdef : qz_a1b0_f32_bf16 (FP.finite (3 / 2))
      = bf16_of_f32 (FP.finite ((mxcsr_round (FP.finite (3 / 2)) : Int) : ℚ)) := rfl
  rw [hdef, mxcsr_round_three_halves]
  norm_num [bf16_of_f32_two]

theorem qz_f32_bf16_unit_coeffs_three_halves :
    qz_f32_bf16 (FP.finite (3 / 2)) (FP.finite 0) (FP.finite 1) (FP.finite 0)
      = FP.finite (3 / 2) := by
  have hdef : qz_f32_bf16 (FP.finite (3 / 2)) (FP.finite 0) (FP.finite 1) (FP.finite 0)
      = bf16_of_f32 (fpAdd (fpMul (FP.finite 1) (FP.finite (3 / 2)))
          (betaTerm (FP.finite 0) (FP.finite 0))) := rfl
  rw [hdef, fpMul_finite_one, betaTerm_finite_zero, fpAdd_finite_zero,
    bf16_of_f32_three_halves]

/-! Claim theorems. -/

set_option maxRecDepth 8192 in
/-- C4: for all 256 `uint8_t` inputs the fast path `saturate<int8_t, uint8_t>`
equals the generic two-compare saturation clamping into `[-128, 127]`, and for
all 256 `int8_t` inputs the fast path `saturate<uint8_t, int8_t>` equals the
generic two-compare saturation clamping into `[0, 255]`. -/
theorem c4_crosssign_fast_paths_equal_generic :
    (∀ x : Fin 256, saturate_s8_from_u8 (x.val : Int) = saturate s8 (x.val : Int))
    ∧ (∀ x : Fin 256,
        saturate_u8_from_s8 ((x.val : Int) - 128) = saturate u8 ((x.val : Int) - 128)) := by
  constructor <;> decide

/-- C5: for every integral destination range with `lowest ≤ max`, `saturate`
is the identity on in-range inputs, clamps below-range inputs to `lowest`, and
clamps above-range inputs to `max`. -/
theorem c5_saturate_clamps (T : IntType) (x : Int) (h : T.lowest ≤ T.max) :
    (T.lowest ≤ x ∧ x ≤ T.max → saturate T x = x)
    ∧ (x < T.lowest → saturate T x = T.lowest)
    ∧ (T.max < x → saturate T x = T.max) := by
  refine ⟨fun hx => ?_, fun hx => ?_, fun hx => ?_⟩ <;>
    simp only [saturate] <;> split_ifs <;> omega

/-- Witness for C5 at the `int8_t` range. -/
theorem c5_saturate_clamps_witness :
    saturate s8 5 = 5 ∧ saturate s8 (-200) = s8.lowest ∧ saturate s8 300 = s8.max :=
  ⟨(c5_saturate_clamps s8 5 (by decide)).1 ⟨by decide, by decide⟩,
   (c5_saturate_clamps s8 (-200) (by decide)).2.1 (by decide),
   (c5_saturate_clamps s8 300 (by decide)).2.2 (by decide)⟩

/-- C8: for every integral destination range with `lowest ≤ max`, `saturate`
is idempotent. -/
theorem c8_saturate_idempotent (T : IntType) (x : Int) (h : T.lowest ≤ T.max) :
    saturate T (saturate T x) = saturate T x := by
  simp only [saturate]
  split_ifs <;> omega

/-- Witness for C8 at the `int8_t` range and an out-of-range input. -/
theorem c8_saturate_idempotent_witness :
    saturate s8 (saturate s8 300) = saturate s8 300 :=
  c8_saturate_idempotent s8 300 (by decide)

/-- C6: every general-affine `qz` path invoked with `beta = 0` yields a result
independent of the previous-output argument (any two previous outputs,
including NaN or infinity for the floating variants, give the same result),
because the `beta ? beta * out : 0` guard substitutes an exact zero. -/
theorem c6_qz_beta0_independent_of_out_prev :
    (∀ (T : IntType) (inF : FP) (o o2 : Int) (alpha : FP),
      qz_int T inF o alpha (FP.finite 0) = qz_int T inF o2 alpha (FP.finite 0))
    ∧ (∀ inF o o2 alpha : FP,
      qz_f32 inF o alpha (FP.finite 0) = qz_f32 inF o2 alpha (FP.finite 0))
    ∧ (∀ inF o o2 alpha : FP,
      qz_bf16_bf16 inF o alpha (FP.finite 0) = qz_bf16_bf16 inF o2 alpha (FP.finite 0))
    ∧ (∀ inF o o2 alpha : FP,
      qz_f32_bf16 inF o alpha (FP.finite 0) = qz_f32_bf16 inF o2 alpha (FP.finite 0))
    ∧ (∀ inF o o2 alpha : FP,
      qz_f16_f16 inF o alpha (FP.finite 0) = qz_f16_f16 inF o2 alpha (FP.finite 0))
    ∧ (∀ inF o o2 alpha : FP,
      qz_f32_f16 inF o alpha (FP.finite 0) = qz_f32_f16 inF o2 alpha (FP.finite 0)) := by
  refine ⟨fun T inF o o2 alpha => ?_, fun inF o o2 alpha => ?_, fun inF o o2 alpha => ?_,
    fun inF o o2 alpha => ?_, fun inF o o2 alpha => ?_, fun inF o o2 alpha => ?_⟩ <;>
    simp [qz_int, qz_f32, qz_bf16_bf16, qz_f32_bf16, qz_f16_f16, qz_f32_f16,
      betaTerm_finite_zero]

/-- C2 counterexample: `qz_a1` with `beta = 0` does read the previous output —
there is no guard on `beta * out`, so a NaN previous output changes the result
(`0 * NaN = NaN`), refuting the claimed independence. -/
theorem c2_counterexample :
    qz_a1_f32 (FP.finite 1) FP.nan (FP.finite 0)
      ≠ qz_a1_f32 (FP.finite 1) (FP.finite 0) (FP.finite 0) := by
  simp [qz_a1_f32, fpMul, fpAdd]

/-- C7: under the modelled default round-to-nearest-even mode,
`round_and_saturate<int8_t>(200.4f)` is `127` (rounds to `200`, saturates to
`int8_t` max) and `round_and_saturate<uint8_t>(-5.6f)` is `0` (rounds to `-6`,
saturates to `uint8_t` min). -/
theorem c7_round_and_saturate_concrete :
    round_and_saturate s8 (FP.finite (1002 / 5)) = 127
    ∧ round_and_saturate u8 (FP.finite (-(28 / 5))) = 0 := by
  have h1 : rneInt ((1002 : ℚ) / 5) = 200 :=
    rneInt_eq_low _ 200 (by norm_num [Int.floor_eq_iff]) (by norm_num)
  have h2 : rneInt (-((28 : ℚ) / 5)) = -6 :=
    rneInt_eq_low _ (-6) (by norm_num [Int.floor_eq_iff]) (by norm_num)
  constructor
  · simp only [round_and_saturate, mxcsr_round, h1, saturate, s8]
    norm_num
  · simp only [round_and_saturate, mxcsr_round, h2, saturate, u8]
    norm_num

/-- C10: `round_and_saturate` feeds the rounding primitive's 32-bit `int`
result into `saturate`, so a float whose rounded value exceeds the `int32`
range takes the out-of-range path of the x64 rounding instruction (integer
indefinite `INT_MIN`) and lands on `lowest(T)`, not `max(T)`: at input
`3e9`, `round_and_saturate<int8_t>` yields `-128`. -/
theorem c10_rounding_passes_through_int32 :
    (∀ (T : IntType) (f : FP), round_and_saturate T f = saturate T (mxcsr_round f))
    ∧ mxcsr_round (FP.finite 3000000000) = -2147483648
    ∧ round_and_saturate s8 (FP.finite 3000000000) = s8.lowest
    ∧ round_and_saturate s8 (FP.finite 3000000000) ≠ s8.max := by
  have h : rneInt (3000000000 : ℚ) = 3000000000 :=
    rneInt_eq_low _ 3000000000 (by norm_num [Int.floor_eq_iff]) (by norm_num)
  have hm : mxcsr_round (FP.finite 3000000000) = -2147483648 := by
    simp only [mxcsr_round, h]
    norm_num
  refine ⟨fun T f => rfl, hm, ?_, ?_⟩
  · simp only [round_and_saturate, hm, saturate, s8]
    norm_num
  · simp only [round_and_saturate, hm, saturate, s8]
    norm_num

/-- C9: the `double` overload of `out_round` narrows its argument to `float`
first and then rounds that `float`: it agrees with the `float` overload
applied to the narrowed value for every integral destination cast, and at
`16777216.7` (not representable in `float`) it produces `16777216`, while
rounding at full `double` precision would give `16777217`. -/
theorem c9_double_overload_narrows_to_float_first :
    (∀ (castT : Int → Int) (v : FP),
      out_round_d castT v = out_round_f castT (float_of_double v))
    ∧ out_round_d id (FP.finite (167772167 / 10)) = 16777216
    ∧ rneInt ((167772167 : ℚ) / 10) = 16777217 := by
  have hmx : mxcsr_round (FP.finite (16777216 : ℚ)) = 16777216 := by
    have h := mxcsr_round_int 16777216 (by norm_num) (by norm_num)
    norm_num at h
    exact h
  have hdef : out_round_d id (FP.finite (167772167 / 10))
      = id (mxcsr_round (float_of_double (FP.finite (167772167 / 10)))) := rfl
  refine ⟨fun castT v => rfl, ?_, ?_⟩
  · rw [hdef, float_of_double_eval_c9, hmx]
    rfl
  · have h := rneInt_eq_high ((167772167 : ℚ) / 10) 16777216
      (by norm_num [Int.floor_eq_iff]) (by norm_num)
    norm_num at h
    exact h

/-- C2 amended: `qz_a1` with `beta = 0` computes `beta * out` unconditionally,
so only for previous outputs whose product with zero is an exact zero (all
finite values; every integral-destination instantiation) is the result
independent of the previous output and equal to the quantization of the input
alone. -/
theorem c2_a1_beta0_finite_out_prev_ignored :
    (∀ (inF : FP) (q : ℚ), qz_a1_f32 inF (FP.finite q) (FP.finite 0) = inF)
    ∧ (∀ (T : IntType) (inF : FP) (o o2 : Int),
        qz_a1_int T inF o (FP.finite 0) = qz_a1_int T inF o2 (FP.finite 0))
    ∧ (∀ (T : IntType) (inF : FP) (o : Int),
        qz_a1_int T inF o (FP.finite 0) = round_and_saturate T inF) := by
  refine ⟨fun inF q => ?_, fun T inF o o2 => ?_, fun T inF o => ?_⟩ <;>
    simp [qz_a1_f32, qz_a1_int, fpMul, fpAdd_finite_zero]

/-- C1 counterexample: the identity-scale operator `qz_a1b0` has no
non-integral-destination override; at `in_t = float`, `out_t = bfloat16_t`
the primary template applies and rounds through `int`, so the result at input
`1.5` is `2`, not the boundary-cast unrounded value `1.5` the claim
requires. -/
theorem c1_counterexample :
    qz_a1b0_f32_bf16 (FP.finite (3 / 2)) = FP.finite 2
    ∧ qz_a1b0_f32_bf16 (FP.finite (3 / 2)) ≠ bf16_of_f32 (FP.finite (3 / 2)) := by
  refine ⟨qz_a1b0_f32_bf16_three_halves, ?_⟩
  rw [qz_a1b0_f32_bf16_three_halves, bf16_of_f32_three_halves]
  simp only [ne_eq, FP.finite.injEq]
  norm_num

/-- C1 amended: the float-destination overrides of `qz_b0`, `qz_a1` and `qz`,
and the 16-bit-destination specializations of `qz`, return the unrounded,
unsaturated value of the guarded affine formula computed in the float domain,
with the 16-bit storage cast applied only at the end; `qz_a1b0` (which has no
such override) is excluded.  Concretely, scale-only on a float destination at
`in = 3`, `alpha = 2.5` yields exactly `7.5`. -/
theorem c1_nonintegral_destinations_unrounded :
    (∀ inF alpha : FP, qz_b0_f32 inF alpha = fpMul alpha inF)
    ∧ (∀ inF out beta : FP, qz_a1_f32 inF out beta = fpAdd inF (fpMul beta out))
    ∧ (∀ inF out alpha beta : FP,
        qz_f32 inF out alpha beta = affineGuarded alpha inF beta out)
    ∧ (∀ inF out alpha beta : FP,
        qz_bf16_bf16 inF out alpha beta = bf16_of_f32 (affineGuarded alpha inF beta out))
    ∧ (∀ inF out alpha beta : FP,
        qz_f32_bf16 inF out alpha beta = bf16_of_f32 (affineGuarded alpha inF beta out))
    ∧ (∀ inF out alpha beta : FP,
        qz_f16_f16 inF out alpha beta = f16_of_f32 (affineGuarded alpha inF beta out))
    ∧ (∀ inF out alpha beta : FP,
        qz_f32_f16 inF out alpha beta = f16_of_f32 (affineGuarded alpha inF beta out))
    ∧ qz_b0_f32 (FP.finite 3) (FP.finite (5 / 2)) = FP.finite (15 / 2) := by
  refine ⟨fun _ _ => rfl, fun _ _ _ => rfl, fun _ _ _ _ => rfl, fun _ _ _ _ => rfl,
    fun _ _ _ _ => rfl, fun _ _ _ _ => rfl, fun _ _ _ _ => rfl, ?_⟩
  norm_num [qz_b0_f32, fpMul]

/-- C3 counterexample: at the type pair `(float, bfloat16_t)` and input `1.5`
the identity-scale operator (which rounds through `int` on this pair) gives
`2`, while the full-affine operator at `alpha = 1`, `beta = 0` gives `1.5`. -/
theorem c3_counterexample :
    qz_a1b0_f32_bf16 (FP.finite (3 / 2))
      ≠ qz_f32_bf16 (FP.finite (3 / 2)) (FP.finite 0) (FP.finite 1) (FP.finite 0) := by
  rw [qz_a1b0_f32_bf16_three_halves, qz_f32_bf16_unit_coeffs_three_halves]
  simp only [ne_eq, FP.finite.injEq]
  norm_num

/-- C3 amended: on integral destinations (and for any previous output), the
identity-scale operator agrees with the full-affine operator at `alpha = 1`,
`beta = 0` — shown for the float-to-int8 primary path, the int32-to-int8
saturating path, the int8-to-int32 subset-cast path, and the uint8-to-int8
specialized path; on non-integral destinations where the primary template of
`qz_a1b0` applies, the equality fails (see the counterexample). -/
theorem c3_a1b0_equals_qz_at_unit_coeffs_on_integral_dest :
    (∀ (f : FP) (o : Int), qz_a1b0_f32_s8 f = qz_int s8 f o (FP.finite 1) (FP.finite 0))
    ∧ (∀ i o : Int, -2147483648 ≤ i → i ≤ 2147483647 →
        qz_a1b0_s32_s8 i = qz_int s8 (FP.finite (i : ℚ)) o (FP.finite 1) (FP.finite 0))
    ∧ (∀ i o : Int, -128 ≤ i → i ≤ 127 →
        qz_a1b0_s8_s32 i = qz_int s32 (FP.finite (i : ℚ)) o (FP.finite 1) (FP.finite 0))
    ∧ (∀ i o : Int, 0 ≤ i → i ≤ 255 →
        qz_a1b0_u8_s8 i = qz_int s8 (FP.finite (i : ℚ)) o (FP.finite 1) (FP.finite 0)) := by
  refine ⟨fun f o => ?_, fun i o h1 h2 => ?_, fun i o h1 h2 => ?_, fun i o h1 h2 => ?_⟩
  · simp only [qz_a1b0_f32_s8, qz_int, fpMul_finite_one, betaTerm_finite_zero,
      fpAdd_finite_zero]
  · simp only [qz_a1b0_s32_s8, qz_int, fpMul_finite_one, betaTerm_finite_zero,
      fpAdd_finite_zero, round_and_saturate, mxcsr_round_int i h1 h2]
  · simp only [qz_a1b0_s8_s32, qz_int, fpMul_finite_one, betaTerm_finite_zero,
      fpAdd_finite_zero, round_and_saturate, mxcsr_round_int i (by omega) (by omega),
      saturate, s32]
    split_ifs <;> omega
  · simp only [qz_a1b0_u8_s8, qz_int, fpMul_finite_one, betaTerm_finite_zero,
      fpAdd_finite_zero, round_and_saturate, mxcsr_round_int i (by omega) (by omega),
      saturate, saturate_s8_from_u8, s8]
    split_ifs <;> omega

/-- Witness for C3 at the int32-to-int8 instantiation and input 300. -/
theorem c3_a1b0_equals_qz_witness :
    qz_a1b0_s32_s8 300 = qz_int s8 (FP.finite ((300 : Int) : ℚ)) 7 (FP.finite 1) (FP.finite 0) :=
  c3_a1b0_equals_qz_at_unit_coeffs_on_integral_dest.2.1 300 7 (by norm_num) (by norm_num)

end Q10n
